import Mathlib

/-!
Verification development for the `grader` repository (Go).

Shallow embedding of the parts of the code the claims are about:

* `internal/app/panel/app.go` (file `src/unnamed/part_000`): the service
  constructor `New` and the shutdown method `App.Stop`, embedded as a
  straight-line effect trace (`appNew`) and a small interleaving machine
  (`mainStep` / `goStep` / `exec`) for the `App.Stop` / queue-stop goroutine
  race.
* `internal/pkg/model/user.go`: the `User` struct and its JSON encoding
  per the struct tags (`json:"-"` on `Password` and `IsAdmin`).
* `cmd/grader/cmd/root.go`: the default configuration block read by
  `initConfig` and viper's override layering.
* `pkg/workerpool` is referenced by the app but its source is not part of
  the four files of this repository snapshot; the pool data model is
  modelled from the spec (§4.2) where a claim needs it.
-/

namespace Grader

/-- Go errors as produced by the code: a base error from a collaborator, or
`fmt.Errorf("ctx: %w", cause)` wrapping. -/
inductive GoError where
  | base (s : String)
  | wrap (ctx : String) (cause : GoError)
deriving DecidableEq, Repr

/-- Observable effects performed by `app.New` (src/unnamed/part_000, lines
41–178), in source order.  `wpStart n` is the call `wp.Start(n)`. -/
inductive Event where
  | workerpoolNew
  | dbOpen
  | dbPing
  | migrateUp
  | amqpNew
  | redisNew
  | tokenNew
  | sessionNew
  | s3New
  | usersRepo
  | assessmentsRepo
  | submissionsRepo
  | routerSetup
  | layoutNew
  | userHandler
  | adminHandler
  | submitHandler
  | httpserverNew
  | spawnStopGoroutine
  | wpStart (n : Nat)
deriving DecidableEq, Repr

/-- Environment of `app.New`: the outcome each fallible collaborator call
returns (`none` = success), plus `runtime.GOMAXPROCS(0)`.  The calls that
cannot fail in the source (`redis.NewClient`, `session.NewRedis`, router
setup, the two handler constructors without an error return) carry no entry. -/
structure Env where
  dbOpenErr : Option GoError
  dbPingErr : Option GoError
  migrateErr : Option GoError
  amqpErr : Option GoError
  tokenErr : Option GoError
  s3Err : Option GoError
  usersErr : Option GoError
  assessmentsErr : Option GoError
  submissionsErr : Option GoError
  layoutErr : Option GoError
  submitErr : Option GoError
  httpserverErr : Option GoError
  gomaxprocs : Nat
deriving DecidableEq, Repr

/-- The value `app.New` returns on success (the `*App` literal at lines
160–168); only the shape matters here. -/
structure AppVal where
  gomaxprocs : Nat
deriving DecidableEq, Repr

/-- `app.New` (src/unnamed/part_000, lines 41–178), embedded as the list of
effects it performs together with its `(*App, error)` result.  Go's
`(nil, err)` / `(a, nil)` convention is rendered as `Except`.  Each early
`return nil, fmt.Errorf("…: %w", err)` becomes `.error (.wrap "…" e)`. -/
def appNew (env : Env) : List Event × Except GoError AppVal :=
  let t0 := [Event.workerpoolNew]                                -- line 44
  let t1 := t0 ++ [Event.dbOpen]                                 -- line 46
  match env.dbOpenErr with
  | some e => (t1, .error (.wrap "db open" e))
  | none =>
  let t2 := t1 ++ [Event.dbPing]                                 -- line 51
  match env.dbPingErr with
  | some e => (t2, .error (.wrap "db ping" e))
  | none =>
  let t3 := t2 ++ [Event.migrateUp]                              -- line 54
  match env.migrateErr with
  | some e => (t3, .error (.wrap "migrate up" e))
  | none =>
  let t4 := t3 ++ [Event.amqpNew]                                -- line 59
  match env.amqpErr with
  | some e => (t4, .error (.wrap "amqp" e))
  | none =>
  let t5 := t4 ++ [Event.redisNew]                               -- line 64
  let t6 := t5 ++ [Event.tokenNew]                               -- line 70
  match env.tokenErr with
  | some e => (t6, .error (.wrap "token manager" e))
  | none =>
  let t7 := t6 ++ [Event.sessionNew]                             -- line 75
  let t8 := t7 ++ [Event.s3New]                                  -- line 81
  match env.s3Err with
  | some e => (t8, .error (.wrap "s3" e))
  | none =>
  let t9 := t8 ++ [Event.usersRepo]                              -- line 86
  match env.usersErr with
  | some e => (t9, .error (.wrap "user repository" e))
  | none =>
  let t10 := t9 ++ [Event.assessmentsRepo]                       -- line 90
  match env.assessmentsErr with
  | some e => (t10, .error (.wrap "assessments repository" e))
  | none =>
  let t11 := t10 ++ [Event.submissionsRepo]                      -- line 94
  match env.submissionsErr with
  | some e => (t11, .error (.wrap "assessments repository" e))
  | none =>
  let t12 := t11 ++ [Event.routerSetup]                          -- line 99
  let t13 := t12 ++ [Event.layoutNew]                            -- line 103
  match env.layoutErr with
  | some e => (t13, .error (.wrap "templates" e))
  | none =>
  let t14 := t13 ++ [Event.userHandler, Event.adminHandler]      -- lines 112–113
  let t15 := t14 ++ [Event.submitHandler]                        -- line 114
  match env.submitErr with
  | some e => (t15, .error (.wrap "submission handler" e))
  | none =>
  let t16 := t15 ++ [Event.httpserverNew]                        -- line 155
  match env.httpserverErr with
  | some e => (t16, .error (.wrap "http server" e))
  | none =>
  let t17 := t16 ++ [Event.spawnStopGoroutine]                   -- line 170
  let t18 := t17 ++ [Event.wpStart (2 * env.gomaxprocs)]         -- line 175
  (t18, .ok { gomaxprocs := env.gomaxprocs })

/-- The all-success environment with a given `GOMAXPROCS`. -/
def envOk (g : Nat) : Env :=
  { dbOpenErr := none, dbPingErr := none, migrateErr := none, amqpErr := none
    tokenErr := none, s3Err := none, usersErr := none, assessmentsErr := none
    submissionsErr := none, layoutErr := none, submitErr := none
    httpserverErr := none, gomaxprocs := g }

/-- The full effect trace of a successful `app.New` run. -/
def successTrace (g : Nat) : List Event :=
  [Event.workerpoolNew, Event.dbOpen, Event.dbPing, Event.migrateUp,
   Event.amqpNew, Event.redisNew, Event.tokenNew, Event.sessionNew,
   Event.s3New, Event.usersRepo, Event.assessmentsRepo, Event.submissionsRepo,
   Event.routerSetup, Event.layoutNew, Event.userHandler, Event.adminHandler,
   Event.submitHandler, Event.httpserverNew, Event.spawnStopGoroutine,
   Event.wpStart (2 * g)]

example : appNew (envOk 4) = (successTrace 4, .ok { gomaxprocs := 4 }) := by
  rfl

example :
    appNew { envOk 4 with amqpErr := some (.base "conn refused") } =
      ([Event.workerpoolNew, Event.dbOpen, Event.dbPing, Event.migrateUp,
        Event.amqpNew],
       .error (.wrap "amqp" (.base "conn refused"))) := by
  rfl

/-- Recognizer for the `wp.Start(_)` effect. -/
def isStartEvent : Event → Bool
  | Event.wpStart _ => true
  | _ => false

/-- Recognizer for the `workerpool.New()` effect. -/
def isPoolNewEvent : Event → Bool
  | Event.workerpoolNew => true
  | _ => false

/-- C2: in every run of `app.New` the worker pool is created exactly once
(the single `workerpool.New()` call at line 44), and whenever `New` returns
successfully the only `Start` call ever issued to it is
`wp.Start(runtime.GOMAXPROCS(0) * 2)` (line 175); the embedding of the app
has no resize operation, so the bound is never changed afterwards. -/
theorem pool_created_once_started_double_gomaxprocs (env : Env) :
    (appNew env).1.filter isPoolNewEvent = [Event.workerpoolNew] ∧
    ((appNew env).2.isOk = true →
      (appNew env).1.filter isStartEvent = [Event.wpStart (2 * env.gomaxprocs)]) ∧
    (∀ n, Event.wpStart n ∈ (appNew env).1 → n = 2 * env.gomaxprocs) := by
  obtain ⟨o1, o2, o3, o4, o5, o6, o7, o8, o9, o10, o11, o12, g⟩ := env
  cases o1 with
  | some e => simp [appNew, isPoolNewEvent, isStartEvent, Except.isOk, Except.toBool]
  | none =>
  cases o2 with
  | some e => simp [appNew, isPoolNewEvent, isStartEvent, Except.isOk, Except.toBool]
  | none =>
  cases o3 with
  | some e => simp [appNew, isPoolNewEvent, isStartEvent, Except.isOk, Except.toBool]
  | none =>
  cases o4 with
  | some e => simp [appNew, isPoolNewEvent, isStartEvent, Except.isOk, Except.toBool]
  | none =>
  cases o5 with
  | some e => simp [appNew, isPoolNewEvent, isStartEvent, Except.isOk, Except.toBool]
  | none =>
  cases o6 with
  | some e => simp [appNew, isPoolNewEvent, isStartEvent, Except.isOk, Except.toBool]
  | none =>
  cases o7 with
  | some e => simp [appNew, isPoolNewEvent, isStartEvent, Except.isOk, Except.toBool]
  | none =>
  cases o8 with
  | some e => simp [appNew, isPoolNewEvent, isStartEvent, Except.isOk, Except.toBool]
  | none =>
  cases o9 with
  | some e => simp [appNew, isPoolNewEvent, isStartEvent, Except.isOk, Except.toBool]
  | none =>
  cases o10 with
  | some e => simp [appNew, isPoolNewEvent, isStartEvent, Except.isOk, Except.toBool]
  | none =>
  cases o11 with
  | some e => simp [appNew, isPoolNewEvent, isStartEvent, Except.isOk, Except.toBool]
  | none =>
  cases o12 with
  | some e => simp [appNew, isPoolNewEvent, isStartEvent, Except.isOk, Except.toBool]
  | none => simp [appNew, isPoolNewEvent, isStartEvent, Except.isOk, Except.toBool]

/-- Witness for C2 at a concrete all-success environment with
`GOMAXPROCS = 3`. -/
theorem pool_created_once_started_double_gomaxprocs_witness :
    (appNew (envOk 3)).1.filter isStartEvent = [Event.wpStart 6] :=
  (pool_created_once_started_double_gomaxprocs (envOk 3)).2.1 (by decide)

/-- C3: startup ordering of `app.New`.  Whenever the AMQP connection is
opened, the storage steps (db open, ping, migrate) have all succeeded and
precede it (the trace starts `workerpoolNew, dbOpen, dbPing, migrateUp,
amqpNew`); whenever the worker pool is started, every earlier step has
succeeded and the run is the full success trace, in which `wp.Start` is the
final step, after `amqpNew`.  Early returns mean no later step runs after a
failure. -/
theorem app_startup_order (env : Env) :
    (Event.amqpNew ∈ (appNew env).1 →
      env.dbOpenErr = none ∧ env.dbPingErr = none ∧ env.migrateErr = none ∧
      (appNew env).1.take 5 =
        [Event.workerpoolNew, Event.dbOpen, Event.dbPing, Event.migrateUp,
         Event.amqpNew]) ∧
    (∀ n, Event.wpStart n ∈ (appNew env).1 →
      env.amqpErr = none ∧ (appNew env).1 = successTrace env.gomaxprocs) := by
  obtain ⟨o1, o2, o3, o4, o5, o6, o7, o8, o9, o10, o11, o12, g⟩ := env
  cases o1 with
  | some e => simp [appNew, successTrace]
  | none =>
  cases o2 with
  | some e => simp [appNew, successTrace]
  | none =>
  cases o3 with
  | some e => simp [appNew, successTrace]
  | none =>
  cases o4 with
  | some e => simp [appNew, successTrace]
  | none =>
  cases o5 with
  | some e => simp [appNew, successTrace]
  | none =>
  cases o6 with
  | some e => simp [appNew, successTrace]
  | none =>
  cases o7 with
  | some e => simp [appNew, successTrace]
  | none =>
  cases o8 with
  | some e => simp [appNew, successTrace]
  | none =>
  cases o9 with
  | some e => simp [appNew, successTrace]
  | none =>
  cases o10 with
  | some e => simp [appNew, successTrace]
  | none =>
  cases o11 with
  | some e => simp [appNew, successTrace]
  | none =>
  cases o12 with
  | some e => simp [appNew, successTrace]
  | none => simp [appNew, successTrace]

/-- Witness for C3 at a concrete all-success environment with
`GOMAXPROCS = 3`. -/
theorem app_startup_order_witness :
    (appNew (envOk 3)).1.take 5 =
      [Event.workerpoolNew, Event.dbOpen, Event.dbPing, Event.migrateUp,
       Event.amqpNew] ∧
    (appNew (envOk 3)).1 = successTrace 3 :=
  ⟨((app_startup_order (envOk 3)).1 (by decide)).2.2.2,
   ((app_startup_order (envOk 3)).2 6 (by decide)).2⟩

/-- C8: `app.New` is all-or-nothing.  It returns `ok` (a non-nil `*App`) iff
every fallible initialization step succeeded; and whenever a step fails, the
result is the error of the first failing step, wrapped with that step's
context string via `fmt.Errorf("…: %w", err)` — so the returned error is
non-nil and wraps the underlying cause, with no `*App` returned. -/
theorem app_new_all_or_nothing (env : Env) :
    ((appNew env).2 = .ok { gomaxprocs := env.gomaxprocs } ↔
      env.dbOpenErr = none ∧ env.dbPingErr = none ∧ env.migrateErr = none ∧
      env.amqpErr = none ∧ env.tokenErr = none ∧ env.s3Err = none ∧
      env.usersErr = none ∧ env.assessmentsErr = none ∧
      env.submissionsErr = none ∧ env.layoutErr = none ∧
      env.submitErr = none ∧ env.httpserverErr = none) ∧
    (∀ e, env.dbOpenErr = some e →
      (appNew env).2 = .error (.wrap "db open" e)) ∧
    (∀ e, env.dbOpenErr = none → env.dbPingErr = some e →
      (appNew env).2 = .error (.wrap "db ping" e)) ∧
    (∀ e, env.dbOpenErr = none → env.dbPingErr = none →
      env.migrateErr = some e →
      (appNew env).2 = .error (.wrap "migrate up" e)) ∧
    (∀ e, env.dbOpenErr = none → env.dbPingErr = none →
      env.migrateErr = none → env.amqpErr = some e →
      (appNew env).2 = .error (.wrap "amqp" e)) ∧
    (∀ e, env.dbOpenErr = none → env.dbPingErr = none →
      env.migrateErr = none → env.amqpErr = none → env.tokenErr = some e →
      (appNew env).2 = .error (.wrap "token manager" e)) ∧
    (∀ e, env.dbOpenErr = none → env.dbPingErr = none →
      env.migrateErr = none → env.amqpErr = none → env.tokenErr = none →
      env.s3Err = some e → (appNew env).2 = .error (.wrap "s3" e)) ∧
    (∀ e, env.dbOpenErr = none → env.dbPingErr = none →
      env.migrateErr = none → env.amqpErr = none → env.tokenErr = none →
      env.s3Err = none → env.usersErr = some e →
      (appNew env).2 = .error (.wrap "user repository" e)) ∧
    (∀ e, env.dbOpenErr = none → env.dbPingErr = none →
      env.migrateErr = none → env.amqpErr = none → env.tokenErr = none →
      env.s3Err = none → env.usersErr = none → env.assessmentsErr = some e →
      (appNew env).2 = .error (.wrap "assessments repository" e)) ∧
    (∀ e, env.dbOpenErr = none → env.dbPingErr = none →
      env.migrateErr = none → env.amqpErr = none → env.tokenErr = none →
      env.s3Err = none → env.usersErr = none → env.assessmentsErr = none →
      env.submissionsErr = some e →
      (appNew env).2 = .error (.wrap "assessments repository" e)) ∧
    (∀ e, env.dbOpenErr = none → env.dbPingErr = none →
      env.migrateErr = none → env.amqpErr = none → env.tokenErr = none →
      env.s3Err = none → env.usersErr = none → env.assessmentsErr = none →
      env.submissionsErr = none → env.layoutErr = some e →
      (appNew env).2 = .error (.wrap "templates" e)) ∧
    (∀ e, env.dbOpenErr = none → env.dbPingErr = none →
      env.migrateErr = none → env.amqpErr = none → env.tokenErr = none →
      env.s3Err = none → env.usersErr = none → env.assessmentsErr = none →
      env.submissionsErr = none → env.layoutErr = none →
      env.submitErr = some e →
      (appNew env).2 = .error (.wrap "submission handler" e)) ∧
    (∀ e, env.dbOpenErr = none → env.dbPingErr = none →
      env.migrateErr = none → env.amqpErr = none → env.tokenErr = none →
      env.s3Err = none → env.usersErr = none → env.assessmentsErr = none →
      env.submissionsErr = none → env.layoutErr = none →
      env.submitErr = none → env.httpserverErr = some e →
      (appNew env).2 = .error (.wrap "http server" e)) := by
  obtain ⟨o1, o2, o3, o4, o5, o6, o7, o8, o9, o10, o11, o12, g⟩ := env
  cases o1 with
  | some e => simp [appNew]
  | none =>
  cases o2 with
  | some e => simp [appNew]
  | none =>
  cases o3 with
  | some e => simp [appNew]
  | none =>
  cases o4 with
  | some e => simp [appNew]
  | none =>
  cases o5 with
  | some e => simp [appNew]
  | none =>
  cases o6 with
  | some e => simp [appNew]
  | none =>
  cases o7 with
  | some e => simp [appNew]
  | none =>
  cases o8 with
  | some e => simp [appNew]
  | none =>
  cases o9 with
  | some e => simp [appNew]
  | none =>
  cases o10 with
  | some e => simp [appNew]
  | none =>
  cases o11 with
  | some e => simp [appNew]
  | none =>
  cases o12 with
  | some e => simp [appNew]
  | none => simp [appNew]

/-- Witness for C8: at the all-success environment `New` returns the app;
at an environment whose db ping fails, `New` returns the wrapped cause. -/
theorem app_new_all_or_nothing_witness :
    (appNew (envOk 3)).2 = .ok { gomaxprocs := 3 } ∧
    (appNew { envOk 3 with dbPingErr := some (.base "timeout") }).2 =
      .error (.wrap "db ping" (.base "timeout")) :=
  ⟨(app_new_all_or_nothing (envOk 3)).1.2 (by decide),
   (app_new_all_or_nothing
      { envOk 3 with dbPingErr := some (.base "timeout") }).2.2.1
      (.base "timeout") rfl rfl⟩

/-!
Shutdown machine.  `App.Stop` (src/unnamed/part_000, lines 180–184) runs
`close(a.stop); a.server.Stop(); a.workers.Stop()` on the calling thread,
while the goroutine spawned at lines 170–173 runs `<-a.stop; q.Stop()`.
We embed both threads as a small interleaving machine: the caller executes a
list of statements, the goroutine is blocked until the stop channel is
closed and then invokes `q.Stop()` once.  Go's `close` on an already-closed
channel panics, which crashes the program (`crashed`); a crashed program
takes no further steps.  The blocking call `a.workers.Stop()` is split into
an entry and a return micro-step so that "the pool's `Stop` completes" is an
observable event.
-/

/-- Statements of the caller thread of `App.Stop`. -/
inductive Stmt where
  | closeStop      -- close(a.stop), line 181
  | serverStop     -- a.server.Stop(), line 182
  | workersBegin   -- a.workers.Stop() is entered, line 183
  | workersEnd     -- a.workers.Stop() returns (pool drained)
deriving DecidableEq, Repr

/-- The body of one `App.Stop` call. -/
def stopBody : List Stmt :=
  [Stmt.closeStop, Stmt.serverStop, Stmt.workersBegin, Stmt.workersEnd]

/-- Observable shutdown events. -/
inductive SEvent where
  | closeStop
  | panicClose     -- close of an already-closed channel: runtime panic
  | serverStop
  | workersBegin
  | workersEnd
  | qStop          -- q.Stop() invoked by the goroutine of lines 170–173
deriving DecidableEq, Repr

/-- State of the shutdown machine. -/
structure ShutState where
  stopClosed : Bool      -- channel a.stop has been closed
  crashed : Bool         -- an unrecovered panic occurred
  prog : List Stmt       -- remaining statements of the caller thread
  goDone : Bool          -- the queue-stop goroutine has run q.Stop()
  events : List SEvent
deriving DecidableEq, Repr

/-- Initial state: channel open, goroutine parked on `<-a.stop`, the caller
about to run `prog`. -/
def initShut (prog : List Stmt) : ShutState :=
  { stopClosed := false, crashed := false, prog := prog, goDone := false
    events := [] }

/-- One step of the caller thread: execute its next statement.  `close` on a
closed channel panics (Go runtime semantics); a crashed program cannot step. -/
def mainStep (s : ShutState) : Option ShutState :=
  if s.crashed then none else
  match s.prog with
  | [] => none
  | Stmt.closeStop :: rest =>
      if s.stopClosed then
        some { s with crashed := true, prog := rest
                      events := s.events ++ [SEvent.panicClose] }
      else
        some { s with stopClosed := true, prog := rest
                      events := s.events ++ [SEvent.closeStop] }
  | Stmt.serverStop :: rest =>
      some { s with prog := rest, events := s.events ++ [SEvent.serverStop] }
  | Stmt.workersBegin :: rest =>
      some { s with prog := rest, events := s.events ++ [SEvent.workersBegin] }
  | Stmt.workersEnd :: rest =>
      some { s with prog := rest, events := s.events ++ [SEvent.workersEnd] }

/-- One step of the queue-stop goroutine: it is blocked until the channel is
closed, then invokes `q.Stop()` exactly once and exits. -/
def goStep (s : ShutState) : Option ShutState :=
  if s.crashed then none
  else if s.goDone then none
  else if s.stopClosed then
    some { s with goDone := true, events := s.events ++ [SEvent.qStop] }
  else none

/-- Scheduler choices. -/
inductive Thread where
  | main
  | go
deriving DecidableEq, Repr

/-- Run the machine under a schedule; `none` when a scheduled thread cannot
step (so every `some` result is a genuinely executable interleaving). -/
def exec : List Thread → ShutState → Option ShutState
  | [], s => some s
  | Thread.main :: ts, s => (mainStep s).bind (exec ts)
  | Thread.go :: ts, s => (goStep s).bind (exec ts)

/-- A schedule of one full `App.Stop` call in which the goroutine runs right
after the channel close. -/
def earlyQStopSched : List Thread :=
  [Thread.main, Thread.go, Thread.main, Thread.main, Thread.main]

/-- The final state of that schedule. -/
def earlyQStopFinal : ShutState :=
  { stopClosed := true, crashed := false, prog := [], goDone := true
    events := [SEvent.closeStop, SEvent.qStop, SEvent.serverStop,
               SEvent.workersBegin, SEvent.workersEnd] }

example : exec earlyQStopSched (initShut stopBody) = some earlyQStopFinal := by
  decide

/-- C1 counterexample: a complete executable interleaving of one `App.Stop`
call in which `q.Stop()` (event index 1) is invoked before `a.workers.Stop()`
completes (event index 4) — indeed before the pool's `Stop` even begins.
`close(a.stop)` at line 181 unblocks the queue-stop goroutine before
`a.workers.Stop()` at line 183 runs, so nothing enforces the claimed
pool-drains-before-queue-close order. -/
theorem queue_stop_races_pool_stop_cex :
    exec earlyQStopSched (initShut stopBody) = some earlyQStopFinal ∧
    SEvent.qStop ∈ earlyQStopFinal.events ∧
    SEvent.workersEnd ∈ earlyQStopFinal.events ∧
    earlyQStopFinal.events.indexOf SEvent.qStop <
      earlyQStopFinal.events.indexOf SEvent.workersEnd := by
  decide

/-- Invariant of executions of a single `App.Stop` call: before the channel
close nothing has happened at all; from then on the close is the first event
of the trace; and `q.Stop` has been invoked exactly once iff the queue-stop
goroutine has run. -/
def Inv1 (s : ShutState) : Prop :=
  (s.stopClosed = false → s = initShut stopBody) ∧
  (s.stopClosed = true → s.events.head? = some SEvent.closeStop) ∧
  s.events.countP (fun e => e == SEvent.qStop) = (if s.goDone then 1 else 0)

theorem head_append_closeStop {ev : List SEvent}
    (h : ev.head? = some SEvent.closeStop) (e : SEvent) :
    (ev ++ [e]).head? = some SEvent.closeStop := by
  cases ev with
  | nil => simp at h
  | cons a t => simpa using h

theorem countP_qStop_append (ev : List SEvent) (e : SEvent)
    (he : (e == SEvent.qStop) = false) :
    (ev ++ [e]).countP (fun x => x == SEvent.qStop) =
      ev.countP (fun x => x == SEvent.qStop) := by
  simp [List.countP_append, List.countP_cons, he]

theorem mainStep_inv1 {s t : ShutState} (hs : Inv1 s)
    (h : mainStep s = some t) : Inv1 t := by
  obtain ⟨h1, h2, h3⟩ := hs
  by_cases hc : s.crashed = true
  · simp [mainStep, hc] at h
  · replace hc : s.crashed = false := by simpa using hc
    cases hp : s.prog with
    | nil => simp [mainStep, hc, hp] at h
    | cons stmt rest =>
      cases hsc : s.stopClosed with
      | false =>
        have hinit := h1 hsc
        subst hinit
        simp [mainStep, initShut, stopBody] at h
        subst h
        refine ⟨by simp, by simp [initShut], by simp [initShut]⟩
      | true =>
        have hh := h2 hsc
        cases stmt with
        | closeStop =>
          simp [mainStep, hc, hp, hsc] at h
          subst h
          exact ⟨by simp, fun _ => head_append_closeStop hh _,
                 by simpa [countP_qStop_append s.events SEvent.panicClose
                     (by decide)] using h3⟩
        | serverStop =>
          simp [mainStep, hc, hp] at h
          subst h
          exact ⟨by simp [hsc], fun _ => head_append_closeStop hh _,
                 by simpa [countP_qStop_append s.events SEvent.serverStop
                     (by decide)] using h3⟩
        | workersBegin =>
          simp [mainStep, hc, hp] at h
          subst h
          exact ⟨by simp [hsc], fun _ => head_append_closeStop hh _,
                 by simpa [countP_qStop_append s.events SEvent.workersBegin
                     (by decide)] using h3⟩
        | workersEnd =>
          simp [mainStep, hc, hp] at h
          subst h
          exact ⟨by simp [hsc], fun _ => head_append_closeStop hh _,
                 by simpa [countP_qStop_append s.events SEvent.workersEnd
                     (by decide)] using h3⟩

theorem goStep_inv1 {s t : ShutState} (hs : Inv1 s)
    (h : goStep s = some t) : Inv1 t := by
  obtain ⟨h1, h2, h3⟩ := hs
  by_cases hc : s.crashed = true
  · simp [goStep, hc] at h
  · replace hc : s.crashed = false := by simpa using hc
    by_cases hg : s.goDone = true
    · simp [goStep, hc, hg] at h
    · replace hg : s.goDone = false := by simpa using hg
      cases hsc : s.stopClosed with
      | false => simp [goStep, hc, hg, hsc] at h
      | true =>
        have hh := h2 hsc
        simp [goStep, hc, hg, hsc] at h
        subst h
        refine ⟨by simp, fun _ => head_append_closeStop hh _, ?_⟩
        rw [hg] at h3
        simp [List.countP_append, List.countP_cons, h3]

theorem exec_inv {P : ShutState → Prop}
    (hmain : ∀ {s t : ShutState}, P s → mainStep s = some t → P t)
    (hgo : ∀ {s t : ShutState}, P s → goStep s = some t → P t) :
    ∀ (ts : List Thread) (s t : ShutState), P s → exec ts s = some t → P t := by
  intro ts
  induction ts with
  | nil =>
    intro s t hs h
    simp [exec] at h
    exact h ▸ hs
  | cons th ts ih =>
    intro s t hs h
    cases th with
    | main =>
      simp only [exec] at h
      cases hm : mainStep s with
      | none => rw [hm] at h; simp at h
      | some s1 =>
        rw [hm] at h; simp at h
        exact ih s1 t (hmain hs hm) h
    | go =>
      simp only [exec] at h
      cases hm : goStep s with
      | none => rw [hm] at h; simp at h
      | some s1 =>
        rw [hm] at h; simp at h
        exact ih s1 t (hgo hs hm) h

/-- C1 (amended): in every execution of a single `App.Stop` call in which
`q.Stop()` is invoked, the invocation strictly follows `close(a.stop)` — the
very first action of `App.Stop` — and happens exactly once; but (per the
counterexample) it is not ordered after the Worker Pool's `Stop` completes:
the queue stop runs concurrently with the pool shutdown. -/
theorem queue_stop_only_after_close (ts : List Thread) (s : ShutState)
    (h : exec ts (initShut stopBody) = some s)
    (hq : SEvent.qStop ∈ s.events) :
    s.events.head? = some SEvent.closeStop ∧
    0 < s.events.indexOf SEvent.qStop ∧
    s.events.countP (fun e => e == SEvent.qStop) = 1 := by
  have hinv := exec_inv mainStep_inv1 goStep_inv1 ts (initShut stopBody) s
    ⟨fun _ => rfl, fun hcl => by simp [initShut] at hcl, by simp [initShut]⟩ h
  obtain ⟨h1, h2, h3⟩ := hinv
  cases hsc : s.stopClosed with
  | false =>
    have := h1 hsc
    rw [this] at hq
    simp [initShut] at hq
  | true =>
    have hh := h2 hsc
    have hgd : s.goDone = true := by
      cases hg : s.goDone with
      | false =>
        rw [hg] at h3
        simp at h3
        exact absurd rfl (h3 _ hq)
      | true => rfl
    refine ⟨hh, ?_, by rw [hgd] at h3; simpa using h3⟩
    obtain ⟨tl, hev⟩ : ∃ tl, s.events = SEvent.closeStop :: tl := by
      cases hev' : s.events with
      | nil => rw [hev'] at hh; simp at hh
      | cons a t =>
        rw [hev'] at hh
        simp at hh
        exact ⟨t, by rw [hh]⟩
    rw [hev]
    simp [List.indexOf_cons]

/-- Witness for the amended C1 at the concrete early-queue-stop run. -/
theorem queue_stop_only_after_close_witness :
    earlyQStopFinal.events.head? = some SEvent.closeStop ∧
    0 < earlyQStopFinal.events.indexOf SEvent.qStop ∧
    earlyQStopFinal.events.countP (fun e => e == SEvent.qStop) = 1 :=
  queue_stop_only_after_close earlyQStopSched earlyQStopFinal
    (by decide) (by decide)

/-!
Calling `App.Stop` twice.  The caller thread then runs the body of lines
181–183 twice in sequence; the second `close(a.stop)` hits an already-closed
channel and panics.
-/

/-- The remaining caller program is always a suffix of the two concatenated
`App.Stop` bodies. -/
def progCases (p : List Stmt) : Prop :=
  p = [Stmt.closeStop, Stmt.serverStop, Stmt.workersBegin, Stmt.workersEnd,
       Stmt.closeStop, Stmt.serverStop, Stmt.workersBegin, Stmt.workersEnd] ∨
  p = [Stmt.serverStop, Stmt.workersBegin, Stmt.workersEnd,
       Stmt.closeStop, Stmt.serverStop, Stmt.workersBegin, Stmt.workersEnd] ∨
  p = [Stmt.workersBegin, Stmt.workersEnd,
       Stmt.closeStop, Stmt.serverStop, Stmt.workersBegin, Stmt.workersEnd] ∨
  p = [Stmt.workersEnd,
       Stmt.closeStop, Stmt.serverStop, Stmt.workersBegin, Stmt.workersEnd] ∨
  p = [Stmt.closeStop, Stmt.serverStop, Stmt.workersBegin, Stmt.workersEnd] ∨
  p = [Stmt.serverStop, Stmt.workersBegin, Stmt.workersEnd] ∨
  p = [Stmt.workersBegin, Stmt.workersEnd] ∨
  p = [Stmt.workersEnd] ∨
  p = []

/-- Invariant of executions of two sequential `App.Stop` calls: once the
caller is down to the second body (length ≤ 7 remaining) the channel is
closed; once it has executed the second `close` (length ≤ 3 remaining) the
program has panicked; `q.Stop` runs exactly once iff the goroutine ran. -/
def Inv2 (s : ShutState) : Prop :=
  progCases s.prog ∧
  (s.prog.length ≤ 7 → s.stopClosed = true) ∧
  (s.prog.length ≤ 3 → s.crashed = true) ∧
  s.events.countP (fun e => e == SEvent.qStop) = (if s.goDone then 1 else 0)

theorem mainStep_inv2 {s t : ShutState} (hs : Inv2 s)
    (h : mainStep s = some t) : Inv2 t := by
  obtain ⟨hA, hB, hC, hD⟩ := hs
  by_cases hc : s.crashed = true
  · simp [mainStep, hc] at h
  · replace hc : s.crashed = false := by simpa using hc
    rcases hA with hp | hp | hp | hp | hp | hp | hp | hp | hp
    · -- full program: the first close; channel may be open or closed
      cases hsc : s.stopClosed with
      | false =>
        simp [mainStep, hc, hp, hsc] at h
        subst h
        refine ⟨?_, fun _ => rfl, fun hlen => absurd hlen (by simp), ?_⟩
        · simp [progCases]
        · rw [countP_qStop_append _ _ (by decide)]
          exact hD
      | true =>
        simp [mainStep, hc, hp, hsc] at h
        subst h
        refine ⟨?_, fun _ => rfl, fun hlen => absurd hlen (by simp), ?_⟩
        · simp [progCases]
        · rw [countP_qStop_append _ _ (by decide)]
          exact hD
    · have hsc := hB (by simp [hp])
      simp [mainStep, hc, hp] at h
      subst h
      refine ⟨?_, fun _ => hsc, fun hlen => absurd hlen (by simp), ?_⟩
      · simp [progCases]
      · rw [countP_qStop_append _ _ (by decide)]
        exact hD
    · have hsc := hB (by simp [hp])
      simp [mainStep, hc, hp] at h
      subst h
      refine ⟨?_, fun _ => hsc, fun hlen => absurd hlen (by simp), ?_⟩
      · simp [progCases]
      · rw [countP_qStop_append _ _ (by decide)]
        exact hD
    · have hsc := hB (by simp [hp])
      simp [mainStep, hc, hp] at h
      subst h
      refine ⟨?_, fun _ => hsc, fun hlen => absurd hlen (by simp), ?_⟩
      · simp [progCases]
      · rw [countP_qStop_append _ _ (by decide)]
        exact hD
    · -- second close: the channel is already closed, so this step panics
      have hsc := hB (by simp [hp])
      simp [mainStep, hc, hp, hsc] at h
      subst h
      refine ⟨?_, fun _ => rfl, fun _ => rfl, ?_⟩
      · simp [progCases]
      · rw [countP_qStop_append _ _ (by decide)]
        exact hD
    · exact absurd (hC (by simp [hp])) (by simp [hc])
    · exact absurd (hC (by simp [hp])) (by simp [hc])
    · exact absurd (hC (by simp [hp])) (by simp [hc])
    · simp [mainStep, hc, hp] at h

theorem goStep_inv2 {s t : ShutState} (hs : Inv2 s)
    (h : goStep s = some t) : Inv2 t := by
  obtain ⟨hA, hB, hC, hD⟩ := hs
  by_cases hc : s.crashed = true
  · simp [goStep, hc] at h
  · replace hc : s.crashed = false := by simpa using hc
    by_cases hg : s.goDone = true
    · simp [goStep, hc, hg] at h
    · replace hg : s.goDone = false := by simpa using hg
      cases hsc : s.stopClosed with
      | false => simp [goStep, hc, hg, hsc] at h
      | true =>
        simp [goStep, hc, hg, hsc] at h
        subst h
        refine ⟨hA, fun _ => rfl, fun hlen => absurd (hC hlen) (by simp [hc]), ?_⟩
        rw [hg] at hD
        simp [List.countP_append, List.countP_cons, hD]

/-- Schedule: one full `App.Stop` call, the goroutine's `q.Stop`, then the
first statement of a second `App.Stop` call. -/
def doubleStopSched : List Thread :=
  [Thread.main, Thread.main, Thread.main, Thread.main, Thread.go, Thread.main]

/-- Final state of that schedule: the second `close(a.stop)` panicked. -/
def doubleStopFinal : ShutState :=
  { stopClosed := true, crashed := true
    prog := [Stmt.serverStop, Stmt.workersBegin, Stmt.workersEnd]
    goDone := true
    events := [SEvent.closeStop, SEvent.serverStop, SEvent.workersBegin,
               SEvent.workersEnd, SEvent.qStop, SEvent.panicClose] }

/-- C4 counterexample: an executable run in which `App.Stop` is called a
second time after a completed first call; its first statement
`close(a.stop)` closes an already-closed channel and panics (`crashed`), so
the second call faults instead of being a no-op or reporting
`AlreadyStoppedError`. -/
theorem app_stop_twice_faults_cex :
    exec doubleStopSched (initShut (stopBody ++ stopBody)) =
      some doubleStopFinal ∧
    doubleStopFinal.crashed = true ∧
    doubleStopFinal.events.countP (fun e => e == SEvent.panicClose) = 1 := by
  decide

/-- C4 (amended): the stop channel does fan out one-time to the queue-stop
goroutine — in every execution of two sequential `App.Stop` calls, `q.Stop`
is invoked at most once — but a second `App.Stop` call is not safe: in every
execution in which the second call has executed its first statement (at most
three caller statements remain), the program has panicked on closing the
already-closed channel. -/
theorem app_stop_twice_panics (ts : List Thread) (s : ShutState)
    (h : exec ts (initShut (stopBody ++ stopBody)) = some s) :
    s.events.countP (fun e => e == SEvent.qStop) ≤ 1 ∧
    (s.prog.length ≤ 3 → s.crashed = true) := by
  have hinv := exec_inv mainStep_inv2 goStep_inv2 ts
    (initShut (stopBody ++ stopBody)) s
    ⟨by simp [progCases, initShut, stopBody],
     fun hlen => absurd hlen (by decide),
     fun hlen => absurd hlen (by decide),
     by simp [initShut]⟩ h
  obtain ⟨hA, hB, hC, hD⟩ := hinv
  refine ⟨?_, hC⟩
  rw [hD]
  cases s.goDone <;> simp

/-- Witness for the amended C4 at the concrete double-stop run. -/
theorem app_stop_twice_panics_witness :
    doubleStopFinal.events.countP (fun e => e == SEvent.qStop) ≤ 1 ∧
    (doubleStopFinal.prog.length ≤ 3 → doubleStopFinal.crashed = true) :=
  app_stop_twice_panics doubleStopSched doubleStopFinal (by decide)

/-!
Worker pool.  `pkg/workerpool` is referenced by the app (`workerpool.New()`,
`wp.Start(...)`, `wp.Stop()`) but its source file is not part of this
repository snapshot, so the pool itself is modelled from the spec (§4.2).
-/

/-- An executor unit is either idle (pulling from the consume sequence or
blocked waiting) or currently executing one grading call. -/
inductive UnitState where
  | idle
  | running
deriving DecidableEq, Repr

/-- Pool lifecycle misuse errors (§7). -/
inductive PoolError where
  | alreadyStarted
deriving DecidableEq, Repr

/-- Modelled from the spec: the Worker Pool of §4.2 (`pkg/workerpool` source
missing from the snapshot) — "an owned, fixed-size collection of executor
units", a started flag guarding `Start`.  Each unit invokes the grading
function synchronously (§5), so a unit executes at most one call at a time. -/
structure Pool where
  started : Bool
  units : List UnitState
deriving DecidableEq, Repr

/-- Modelled from the spec: `workerpool.New()` yields an unstarted pool with
no executor units. -/
def Pool.new : Pool := { started := false, units := [] }

/-- Modelled from the spec: `Start(concurrency int)` "spawns `concurrency`
executor units"; "starting an already-started pool fails with
`AlreadyStartedError`" (§4.2), in which case no additional units are
spawned. -/
def Pool.start (p : Pool) (k : Nat) : Except PoolError Pool :=
  if p.started then .error PoolError.alreadyStarted
  else .ok { started := true, units := List.replicate k UnitState.idle }

/-- Modelled from the spec: a scheduling step of a started pool — some idle
executor unit begins a grading call, or some running unit finishes one.  No
step adds or removes units: the collection is fixed-size for the pool's
lifetime (§4.2). -/
inductive PoolStep : Pool → Pool → Prop
  | callBegin (p : Pool) (i : Nat) (h : p.units[i]? = some UnitState.idle) :
      PoolStep p { p with units := p.units.set i UnitState.running }
  | callEnd (p : Pool) (i : Nat) (h : p.units[i]? = some UnitState.running) :
      PoolStep p { p with units := p.units.set i UnitState.idle }

/-- Reflexive-transitive closure of `PoolStep`. -/
inductive PoolReach : Pool → Pool → Prop
  | refl (p : Pool) : PoolReach p p
  | tail {p q r : Pool} : PoolReach p q → PoolStep q r → PoolReach p r

/-- Number of grading calls executing simultaneously. -/
def runningCount (p : Pool) : Nat :=
  p.units.countP (fun u => u == UnitState.running)

theorem poolStep_length {p q : Pool} (h : PoolStep p q) :
    q.units.length = p.units.length := by
  cases h with
  | callBegin i hi => simp
  | callEnd i hi => simp

theorem poolReach_length {p q : Pool} (h : PoolReach p q) :
    q.units.length = p.units.length := by
  induction h with
  | refl => rfl
  | tail hreach hstep ih => rw [poolStep_length hstep, ih]

/-- C5: spec-modelled concurrency bound.  For a pool started from fresh with
bound `k`, in every reachable pool state at most `k` grading-function
invocations execute simultaneously: the pool has exactly `k` executor units,
each running at most one synchronous grading call, and no step resizes the
collection. -/
theorem pool_concurrency_bound (k : Nat) (p q : Pool)
    (hstart : Pool.new.start k = .ok p) (hreach : PoolReach p q) :
    runningCount q ≤ k := by
  have hp : p = { started := true, units := List.replicate k UnitState.idle } := by
    simpa [Pool.start, Pool.new] using hstart.symm
  have hlen : q.units.length = k := by
    rw [poolReach_length hreach, hp]
    simp
  calc runningCount q ≤ q.units.length := List.countP_le_length _
    _ = k := hlen

/-- A fresh pool started with bound 2. -/
def poolW0 : Pool := { started := true, units := [UnitState.idle, UnitState.idle] }

/-- `poolW0` after its first unit began executing a grading call. -/
def poolW1 : Pool := { started := true, units := [UnitState.running, UnitState.idle] }

/-- Witness for C5 with `k = 2` after one call has begun. -/
theorem pool_concurrency_bound_witness : runningCount poolW1 ≤ 2 :=
  pool_concurrency_bound 2 poolW0 poolW1 rfl
    (PoolReach.tail (PoolReach.refl poolW0) (PoolStep.callBegin poolW0 0 rfl))

/-- C6: spec-modelled idempotence guard.  Calling `Start` on an
already-started pool fails with `AlreadyStartedError`; in particular no `ok`
pool with freshly spawned executor units is produced. -/
theorem pool_start_already_started (p : Pool) (k : Nat)
    (h : p.started = true) :
    p.start k = .error PoolError.alreadyStarted := by
  simp [Pool.start, h]

/-- Witness for C6 at a concrete started pool. -/
theorem pool_start_already_started_witness :
    poolW0.start 4 = .error PoolError.alreadyStarted :=
  pool_start_already_started poolW0 4 rfl

/-!
`model.User` and its JSON encoding (internal/pkg/model/user.go, lines 7–12).
The struct tags are `json:"id"`, `json:"name"`, `json:"-"`, `json:"-"`; per
Go's `encoding/json`, a field tagged `"-"` is never encoded.
-/

/-- `model.User`.  `id` holds the `uuid.UUID` already rendered the way
`encoding/json` renders it (its canonical string). -/
structure User where
  id : String
  name : String
  password : String
  isAdmin : Bool
deriving DecidableEq, Repr

/-- The `User` struct's field list with its JSON tags, as written in the
source: `(Go field name, tag)`. -/
def userFieldTags : List (String × String) :=
  [("ID", "id"), ("Name", "name"), ("Password", "-"), ("IsAdmin", "-")]

/-- `encoding/json` string escaping (quote, backslash, control characters,
and HTML-sensitive characters). -/
def jsonEscapeChar (c : Char) : String :=
  if c = '"' then "\\\""
  else if c = '\\' then "\\\\"
  else if c = '\n' then "\\n"
  else if c = '\t' then "\\t"
  else if c = '\r' then "\\r"
  else if c = '<' then "\\u003c"
  else if c = '>' then "\\u003e"
  else if c = '&' then "\\u0026"
  else String.singleton c

/-- A JSON string literal for `s`. -/
def jsonString (s : String) : String :=
  "\"" ++ String.join (s.data.map jsonEscapeChar) ++ "\""

/-- The JSON text `encoding/json` produces for each Go field's value. -/
def userFieldJson (u : User) : String → String
  | "ID" => jsonString u.id
  | "Name" => jsonString u.name
  | "Password" => jsonString u.password
  | "IsAdmin" => if u.isAdmin then "true" else "false"
  | _ => ""

/-- The encoded key/value pairs of a `User`: `encoding/json` walks the
struct's fields in order, skips any field tagged `"-"`, and uses the tag as
the key otherwise. -/
def marshalUserFields (u : User) : List (String × String) :=
  (userFieldTags.filter (fun ft => ft.2 ≠ "-")).map
    (fun ft => (ft.2, userFieldJson u ft.1))

/-- The full JSON object `encoding/json` produces for a `User`. -/
def marshalUser (u : User) : String :=
  "\x7b" ++
    String.intercalate ","
      ((marshalUserFields u).map (fun kv => jsonString kv.1 ++ ":" ++ kv.2)) ++
  "\x7d"

example :
    marshalUser { id := "u1", name := "alice", password := "pw", isAdmin := true } =
      "\x7b\"id\":\"u1\",\"name\":\"alice\"\x7d" := by
  rfl

/-- C7: the JSON encoding of a `User` never contains the `Password` or
`IsAdmin` fields — the encoded keys are exactly `id` and `name` — and the
output is identical for any two `User`s agreeing on `ID` and `Name`,
whatever their `Password` and `IsAdmin`. -/
theorem user_json_hides_password_isadmin (u1 u2 : User)
    (hid : u1.id = u2.id) (hname : u1.name = u2.name) :
    marshalUser u1 = marshalUser u2 ∧
    (marshalUserFields u1).map Prod.fst = ["id", "name"] := by
  constructor
  · simp [marshalUser, marshalUserFields, userFieldTags, userFieldJson,
      hid, hname]
  · rfl

/-- Witness for C7: two users sharing `ID` and `Name` but with different
`Password` and `IsAdmin` encode to the same JSON. -/
theorem user_json_hides_password_isadmin_witness :
    marshalUser { id := "u1", name := "alice", password := "secret"
                  isAdmin := true } =
      marshalUser { id := "u1", name := "alice", password := "other"
                    isAdmin := false } :=
  (user_json_hides_password_isadmin _ _ rfl rfl).1

/-!
Default configuration of the grader service (cmd/grader/cmd/root.go,
`initConfig`, lines 50–71).  `viper.ReadConfig` loads the inline TOML
document of lines 52–61; environment variables (`AutomaticEnv` with `.`→`_`
replacement), changed command-line flags, and explicit sets override it.
With no override present for a key, the value from that document applies
(bound-flag defaults rank below a read config in viper's precedence).
-/

/-- A configuration value: TOML string or integer, as used in the default
document. -/
inductive CfgVal where
  | str (s : String)
  | num (n : Nat)
deriving DecidableEq, Repr

/-- The inline TOML default document of root.go lines 52–61, flattened to
viper's dotted keys. -/
def defaultConfig : List (String × CfgVal) :=
  [("server.listen", CfgVal.str "localhost:8090"),
   ("server.timeout_read", CfgVal.str "5s"),
   ("server.timeout_write", CfgVal.str "5s"),
   ("server.timeout_idle", CfgVal.str "1m"),
   ("log.verbose", CfgVal.num 0),
   ("log.pretty", CfgVal.num 0)]

/-- Viper's effective lookup: an override (env var, changed flag, explicit
set) wins; otherwise the value of the config read by `ReadConfig`. -/
def effectiveConfig (overrides : List (String × CfgVal)) (key : String) :
    Option CfgVal :=
  match overrides.lookup key with
  | some v => some v
  | none => defaultConfig.lookup key

/-- C9: with no environment variable, flag, or external config overriding
them, the effective configuration values are `server.listen =
"localhost:8090"`, `timeout_read = 5s`, `timeout_write = 5s`,
`timeout_idle = 1m`, `log.verbose = 0` and `log.pretty = 0`. -/
theorem default_config_values (ov : List (String × CfgVal))
    (h1 : ov.lookup "server.listen" = none)
    (h2 : ov.lookup "server.timeout_read" = none)
    (h3 : ov.lookup "server.timeout_write" = none)
    (h4 : ov.lookup "server.timeout_idle" = none)
    (h5 : ov.lookup "log.verbose" = none)
    (h6 : ov.lookup "log.pretty" = none) :
    effectiveConfig ov "server.listen" = some (CfgVal.str "localhost:8090") ∧
    effectiveConfig ov "server.timeout_read" = some (CfgVal.str "5s") ∧
    effectiveConfig ov "server.timeout_write" = some (CfgVal.str "5s") ∧
    effectiveConfig ov "server.timeout_idle" = some (CfgVal.str "1m") ∧
    effectiveConfig ov "log.verbose" = some (CfgVal.num 0) ∧
    effectiveConfig ov "log.pretty" = some (CfgVal.num 0) := by
  refine ⟨?_, ?_, ?_, ?_, ?_, ?_⟩ <;>
    · simp only [effectiveConfig, h1, h2, h3, h4, h5, h6]
      decide

/-- Witness for C9 with no overrides at all. -/
theorem default_config_values_witness :
    effectiveConfig [] "server.listen" = some (CfgVal.str "localhost:8090") ∧
    effectiveConfig [] "server.timeout_read" = some (CfgVal.str "5s") ∧
    effectiveConfig [] "server.timeout_write" = some (CfgVal.str "5s") ∧
    effectiveConfig [] "server.timeout_idle" = some (CfgVal.str "1m") ∧
    effectiveConfig [] "log.verbose" = some (CfgVal.num 0) ∧
    effectiveConfig [] "log.pretty" = some (CfgVal.num 0) :=
  default_config_values [] rfl rfl rfl rfl rfl rfl

end Grader
